import Mathlib

/-!
# Verification of the model-lifecycle store (`src/stores/modelStore.ts`)

A shallow embedding of the zustand store `useModelStore`.  JavaScript
`Record<string, V>` objects are embedded as association lists
`List (String × V)` (insertion preserves key order, assignment to an
existing key replaces in place, `delete` removes the entry), and
`Record<string, true>` membership sets as key lists `List String`.
JavaScript numbers are embedded as rationals `ℚ` (the store's arithmetic
on them is exact in the claims under study).  Every asynchronous backend
round trip (`commands.*`) is embedded by passing its outcome — success
payload, rejected-with-message, or thrown — as an explicit argument, so
each store action becomes a pure state transformer.
-/

namespace ModelStore

/-- Outcome of one gateway call: `ok` with payload, explicit failure
status with message, or a thrown transport error (stringified). -/
inductive CmdResult (α : Type) where
  | ok (data : α)
  | err (error : String)
  | thrown (exn : String)
deriving DecidableEq, Repr

/-! ## Record-as-association-list primitives -/

/-- Lookup `m[k]` on a JS `Record<string, V>`. -/
def lookupV {α : Type} : List (String × α) → String → Option α
  | [], _ => none
  | (k', v) :: rest, k => if k' = k then some v else lookupV rest k

/-- Assignment `m[k] = v` on a JS `Record<string, V>`: replaces in place
if the key is present, appends otherwise. -/
def setV {α : Type} : List (String × α) → String → α → List (String × α)
  | [], k, v => [(k, v)]
  | (k', v') :: rest, k, v =>
      if k' = k then (k, v) :: rest else (k', v') :: setV rest k v

/-- Deletion `delete m[k]` on a JS `Record<string, V>`. -/
def delV {α : Type} : List (String × α) → String → List (String × α)
  | [], _ => []
  | (k', v) :: rest, k => if k' = k then delV rest k else (k', v) :: delV rest k

/-- Key-set membership (`k in m` for a `Record<string, true>`). -/
def memK : List String → String → Bool
  | [], _ => false
  | x :: rest, k => if x = k then true else memK rest k

/-- Assignment `m[k] = true` on a `Record<string, true>`: no-op if
present, append otherwise. -/
def addK (l : List String) (k : String) : List String :=
  if memK l k then l else l ++ [k]

/-- Deletion `delete m[k]` on a `Record<string, true>`. -/
def delK : List String → String → List String
  | [], _ => []
  | x :: rest, k => if x = k then delK rest k else x :: delK rest k

/-- Key filter keeping the keys satisfying `f`: the effect of the
delete-while-iterating loops in the store. -/
def filterK (f : String → Bool) : List String → List String
  | [] => []
  | x :: rest => if f x then x :: filterK f rest else filterK f rest

@[simp] theorem lookupV_nil {α : Type} (k : String) :
    lookupV ([] : List (String × α)) k = none := rfl

theorem lookupV_setV {α : Type} (m : List (String × α)) (k k' : String) (v : α) :
    lookupV (setV m k v) k' = if k = k' then some v else lookupV m k' := by
  induction m with
  | nil => simp [setV, lookupV]
  | cons p rest ih =>
      obtain ⟨k₀, v₀⟩ := p
      by_cases h : k₀ = k
      · subst h
        by_cases h' : k₀ = k'
        · simp [setV, lookupV, h']
        · simp [setV, lookupV, h']
      · simp only [setV, if_neg h, lookupV]
        by_cases h' : k₀ = k'
        · subst h'
          have hne : ¬ k = k₀ := fun hc => h hc.symm
          simp [hne]
        · simp [h', ih]

theorem lookupV_delV {α : Type} (m : List (String × α)) (k k' : String) :
    lookupV (delV m k) k' = if k = k' then none else lookupV m k' := by
  induction m with
  | nil => simp [delV, lookupV]
  | cons p rest ih =>
      obtain ⟨k₀, v₀⟩ := p
      by_cases h : k₀ = k
      · subst h
        by_cases h' : k₀ = k'
        · subst h'
          simpa [delV, lookupV] using ih
        · simpa [delV, lookupV, h'] using ih
      · by_cases h' : k₀ = k'
        · subst h'
          have hne : ¬ k = k₀ := fun hc => h hc.symm
          simp [delV, lookupV, h, hne]
        · simp [delV, lookupV, h, h', ih]

theorem memK_append (l l' : List String) (k : String) :
    memK (l ++ l') k = (memK l k || memK l' k) := by
  induction l with
  | nil => simp [memK]
  | cons x rest ih =>
      by_cases hx : x = k
      · simp [memK, hx]
      · simp [memK, hx, ih]

theorem memK_addK (l : List String) (k k' : String) :
    memK (addK l k) k' = (memK l k' || decide (k = k')) := by
  unfold addK
  by_cases h : memK l k
  · by_cases h' : k = k'
    · subst h'
      simp [h]
    · simp [h, h']
  · rw [if_neg h, memK_append]
    by_cases h' : k = k'
    · subst h'
      simp [memK]
    · simp [memK, h']

theorem memK_delK (l : List String) (k k' : String) :
    memK (delK l k) k' = if k = k' then false else memK l k' := by
  induction l with
  | nil => simp [delK, memK]
  | cons x rest ih =>
      by_cases hx : x = k
      · subst hx
        by_cases h' : x = k'
        · subst h'
          simpa [delK, memK] using ih
        · simpa [delK, memK, h'] using ih
      · by_cases h' : x = k'
        · subst h'
          have hne : ¬ k = x := fun hc => hx hc.symm
          simp [delK, memK, hx, hne]
        · simp [delK, memK, hx, h', ih]

theorem memK_foldl_addK (ids : List String) (l : List String) (k : String) :
    memK (ids.foldl addK l) k = (memK l k || memK ids k) := by
  induction ids generalizing l with
  | nil => simp [memK]
  | cons x rest ih =>
      simp only [List.foldl_cons, ih, memK_addK, memK]
      by_cases hx : x = k
      · subst hx
        simp
      · simp [hx]

theorem memK_filterK (f : String → Bool) (l : List String) (k : String) :
    memK (filterK f l) k = (memK l k && f k) := by
  induction l with
  | nil => simp [filterK, memK]
  | cons x rest ih =>
      by_cases hx : x = k
      · subst hx
        cases hfx : f x
        · simp [filterK, hfx, memK, ih]
        · simp [filterK, hfx, memK]
      · cases hfx : f x
        · simp [filterK, hfx, memK, hx, ih]
        · simp [filterK, hfx, memK, hx, ih]

/-! ## Data model (`modelStore.ts` interfaces) -/

/-- The slice of a backend `ModelInfo` the store logic reads: the model's
identity and the backend-reported is-downloading flag.  The remaining
attributes (display name, engine type, feature flags) are display
metadata never consulted by the reconciler. -/
structure ModelInfo where
  id : String
  is_downloading : Bool
deriving DecidableEq, Repr

/-- Payload of a `model-download-progress` event (interface
`DownloadProgress`). -/
structure DownloadProgress where
  model_id : String
  downloaded : ℚ
  total : ℚ
  percentage : ℚ
deriving DecidableEq, Repr

/-- Per-model throughput-estimator state (interface `DownloadStats`). -/
structure DownloadStats where
  startTime : ℚ
  lastUpdate : ℚ
  totalDownloaded : ℚ
  speed : ℚ
deriving DecidableEq, Repr

/-- The zustand store state (interface `ModelsStore`, data fields). -/
structure ModelsStore where
  models : List ModelInfo
  currentModel : String
  downloadingModels : List String
  extractingModels : List String
  downloadProgress : List (String × DownloadProgress)
  downloadStats : List (String × DownloadStats)
  loading : Bool
  error : Option String
  hasAnyModels : Bool
  isFirstRun : Bool
  initialized : Bool
deriving DecidableEq, Repr

/-- The store's initial state (the literal at store creation). -/
def initialState : ModelsStore where
  models := []
  currentModel := ""
  downloadingModels := []
  extractingModels := []
  downloadProgress := []
  downloadStats := []
  loading := true
  error := none
  hasAnyModels := false
  isFirstRun := false
  initialized := false

/-! ## Store actions

Each asynchronous action takes the outcome of its backend call(s) as an
explicit `CmdResult` argument and becomes a pure state transformer;
actions that the source returns a `Promise<boolean>` for also return
that boolean. -/

/-- Ids the snapshot marks as downloading (the `backendDownloading`
record built inside `loadModels`). -/
def backendDownloadingIds (data : List ModelInfo) : List String :=
  (data.filter (fun m => m.is_downloading)).map (fun m => m.id)

/-- Action `loadModels`: on success replace the model list, clear the
error, and merge the downloading set (add every snapshot-downloading id;
then drop each member the snapshot says is not downloading and that has
no progress record); on rejection or throw set an error message.  The
`finally` block always clears `loading`. -/
def loadModels (res : CmdResult (List ModelInfo)) (s : ModelsStore) : ModelsStore :=
  match res with
  | .ok data =>
      let s1 := { s with models := data, error := none }
      let backendIds := backendDownloadingIds data
      let dm1 := backendIds.foldl addK s1.downloadingModels
      let dm2 := filterK
        (fun id => memK backendIds id || (lookupV s1.downloadProgress id).isSome) dm1
      { s1 with downloadingModels := dm2, loading := false }
  | .err e => { s with error := some ("Failed to load models: " ++ e), loading := false }
  | .thrown e => { s with error := some ("Failed to load models: " ++ e), loading := false }

/-- Action `loadCurrentModel`: on success replace `currentModel`; a
rejected status is ignored and a thrown error only logged. -/
def loadCurrentModel (res : CmdResult String) (s : ModelsStore) : ModelsStore :=
  match res with
  | .ok data => { s with currentModel := data }
  | .err _ => s
  | .thrown _ => s

/-- Action `checkFirstRun`: on success record model availability and the
first-run flag and return the latter; on rejection or throw return
`false` without touching the state. -/
def checkFirstRun (res : CmdResult Bool) (s : ModelsStore) : ModelsStore × Bool :=
  match res with
  | .ok hasModels => ({ s with hasAnyModels := hasModels, isFirstRun := !hasModels }, !hasModels)
  | .err _ => (s, false)
  | .thrown _ => (s, false)

/-- Action `selectModel`: clear the error, issue `setActiveModel`; on
success record the new active model and clear first-run; on failure set
an error message. -/
def selectModel (modelId : String) (res : CmdResult Unit) (s : ModelsStore) :
    ModelsStore × Bool :=
  let s1 := { s with error := none }
  match res with
  | .ok _ =>
      ({ s1 with currentModel := modelId, isFirstRun := false, hasAnyModels := true }, true)
  | .err e => ({ s1 with error := some ("Failed to switch to model: " ++ e) }, false)
  | .thrown e => ({ s1 with error := some ("Failed to switch to model: " ++ e) }, false)

/-- The zeroed progress record `downloadModel` installs optimistically. -/
def zeroProgress (modelId : String) : DownloadProgress where
  model_id := modelId
  downloaded := 0
  total := 0
  percentage := 0

/-- Action `downloadModel`: clear the error, optimistically add the id to
`downloadingModels` and install a zeroed progress record, then issue the
command; on rejection or throw set an error message and delete the
membership entry (the progress record is not deleted). -/
def downloadModel (modelId : String) (res : CmdResult Unit) (s : ModelsStore) :
    ModelsStore × Bool :=
  let s1 := { s with error := none }
  let s2 := { s1 with
    downloadingModels := addK s1.downloadingModels modelId
    downloadProgress := setV s1.downloadProgress modelId (zeroProgress modelId) }
  match res with
  | .ok _ => (s2, true)
  | .err e =>
      ({ s2 with
          error := some ("Failed to download model: " ++ e)
          downloadingModels := delK s2.downloadingModels modelId }, false)
  | .thrown e =>
      ({ s2 with
          error := some ("Failed to download model: " ++ e)
          downloadingModels := delK s2.downloadingModels modelId }, false)

/-- Removal of all download bookkeeping for one id: membership, progress
record, and throughput stats (the shared delete block of
`cancelDownload` and the `model-download-complete` /
`model-download-cancelled` listeners). -/
def removeDownloadEntries (modelId : String) (s : ModelsStore) : ModelsStore :=
  { s with
    downloadingModels := delK s.downloadingModels modelId
    downloadProgress := delV s.downloadProgress modelId
    downloadStats := delV s.downloadStats modelId }

/-- Action `cancelDownload`: clear the error and issue the command; on
success delete membership, progress and stats for the id, then reload the
snapshot (`loadModels`, whose own outcome is `snapRes`); on rejection or
throw set an error message and leave everything else unchanged. -/
def cancelDownload (modelId : String) (res : CmdResult Unit)
    (snapRes : CmdResult (List ModelInfo)) (s : ModelsStore) : ModelsStore × Bool :=
  let s1 := { s with error := none }
  match res with
  | .ok _ => (loadModels snapRes (removeDownloadEntries modelId s1), true)
  | .err e => ({ s1 with error := some ("Failed to cancel download: " ++ e) }, false)
  | .thrown e => ({ s1 with error := some ("Failed to cancel download: " ++ e) }, false)

/-- Action `deleteModel`: clear the error and issue the command; on
success run `loadModels` then `loadCurrentModel`; on rejection or throw
set an error message. -/
def deleteModel (modelId : String) (res : CmdResult Unit)
    (snapRes : CmdResult (List ModelInfo)) (curRes : CmdResult String)
    (s : ModelsStore) : ModelsStore × Bool :=
  let s1 := { s with error := none }
  match res with
  | .ok _ => (loadCurrentModel curRes (loadModels snapRes s1), true)
  | .err e => ({ s1 with error := some ("Failed to delete model: " ++ e) }, false)
  | .thrown e => ({ s1 with error := some ("Failed to delete model: " ++ e) }, false)

/-! ## Event listeners -/

/-- The raw instantaneous speed `bytesDiff / (1024 * 1024) / timeDiff` of
the progress listener (MB per second). -/
def currentSpeedOf (current : DownloadStats) (downloaded now : ℚ) : ℚ :=
  (downloaded - current.totalDownloaded) / (1024 * 1024) / ((now - current.lastUpdate) / 1000)

/-- The clamped instantaneous speed `Math.max(0, currentSpeed)`: the
contribution the smoothing step uses. -/
def validCurrentSpeed (current : DownloadStats) (downloaded now : ℚ) : ℚ :=
  max 0 (currentSpeedOf current downloaded now)

/-- Listener for `model-download-progress`: store the raw payload as the
displayed progress, then update the throughput stats — initialize them on
first sight of the id; on a later sample, only when more than 0.5 s have
elapsed since the last accepted sample, blend the clamped instantaneous
speed into the smoothed speed (80/20 when a positive speed exists) and
roll forward `lastUpdate` and `totalDownloaded`. -/
def onDownloadProgress (p : DownloadProgress) (now : ℚ) (s : ModelsStore) : ModelsStore :=
  let s1 := { s with downloadProgress := setV s.downloadProgress p.model_id p }
  match lookupV s1.downloadStats p.model_id with
  | none =>
      let fresh : DownloadStats :=
        { startTime := now, lastUpdate := now, totalDownloaded := p.downloaded, speed := 0 }
      { s1 with downloadStats := setV s1.downloadStats p.model_id fresh }
  | some current =>
      if (now - current.lastUpdate) / 1000 > 0.5 then
        let smoothedSpeed :=
          if current.speed > 0 then
            current.speed * 0.8 + validCurrentSpeed current p.downloaded now * 0.2
          else validCurrentSpeed current p.downloaded now
        let updated : DownloadStats :=
          { startTime := current.startTime, lastUpdate := now,
            totalDownloaded := p.downloaded, speed := max 0 smoothedSpeed }
        { s1 with downloadStats := setV s1.downloadStats p.model_id updated }
      else s1

/-- Listener for `model-download-complete`: delete membership, progress
and stats for the id, then fire `loadModels` (outcome `snapRes`). -/
def onDownloadComplete (modelId : String) (snapRes : CmdResult (List ModelInfo))
    (s : ModelsStore) : ModelsStore :=
  loadModels snapRes (removeDownloadEntries modelId s)

/-- Listener for `model-download-cancelled`: delete membership, progress
and stats for the id; no refresh. -/
def onDownloadCancelled (modelId : String) (s : ModelsStore) : ModelsStore :=
  removeDownloadEntries modelId s

/-- Listener for `model-extraction-started`. -/
def onExtractionStarted (modelId : String) (s : ModelsStore) : ModelsStore :=
  { s with extractingModels := addK s.extractingModels modelId }

/-- Listener for `model-extraction-completed`: drop the id from the
extracting set, then fire `loadModels`. -/
def onExtractionCompleted (modelId : String) (snapRes : CmdResult (List ModelInfo))
    (s : ModelsStore) : ModelsStore :=
  loadModels snapRes { s with extractingModels := delK s.extractingModels modelId }

/-- Listener for `model-extraction-failed`: drop the id from the
extracting set and set an error message. -/
def onExtractionFailed (modelId : String) (errMsg : String) (s : ModelsStore) : ModelsStore :=
  { s with
    extractingModels := delK s.extractingModels modelId
    error := some ("Failed to extract model: " ++ errMsg) }

/-- Listener for `model-deleted`: fire `loadModels` and
`loadCurrentModel`. -/
def onModelDeleted (snapRes : CmdResult (List ModelInfo)) (curRes : CmdResult String)
    (s : ModelsStore) : ModelsStore :=
  loadCurrentModel curRes (loadModels snapRes s)

/-- Listener for `model-state-changed`: fire `loadModels` and
`loadCurrentModel`. -/
def onStateChanged (snapRes : CmdResult (List ModelInfo)) (curRes : CmdResult String)
    (s : ModelsStore) : ModelsStore :=
  loadCurrentModel curRes (loadModels snapRes s)

/-! ## Reachability -/

/-- One atomic state mutation of the store: an action together with the
outcome(s) of its backend calls, an event-listener invocation, or one of
the internal setters. -/
inductive Step : ModelsStore → ModelsStore → Prop where
  | stepLoadModels (res : CmdResult (List ModelInfo)) (s : ModelsStore) :
      Step s (loadModels res s)
  | stepLoadCurrentModel (res : CmdResult String) (s : ModelsStore) :
      Step s (loadCurrentModel res s)
  | stepCheckFirstRun (res : CmdResult Bool) (s : ModelsStore) :
      Step s (checkFirstRun res s).1
  | stepSelectModel (modelId : String) (res : CmdResult Unit) (s : ModelsStore) :
      Step s (selectModel modelId res s).1
  | stepDownloadModel (modelId : String) (res : CmdResult Unit) (s : ModelsStore) :
      Step s (downloadModel modelId res s).1
  | stepCancelDownload (modelId : String) (res : CmdResult Unit)
      (snapRes : CmdResult (List ModelInfo)) (s : ModelsStore) :
      Step s (cancelDownload modelId res snapRes s).1
  | stepDeleteModel (modelId : String) (res : CmdResult Unit)
      (snapRes : CmdResult (List ModelInfo)) (curRes : CmdResult String) (s : ModelsStore) :
      Step s (deleteModel modelId res snapRes curRes s).1
  | stepProgress (p : DownloadProgress) (now : ℚ) (s : ModelsStore) :
      Step s (onDownloadProgress p now s)
  | stepDownloadComplete (modelId : String) (snapRes : CmdResult (List ModelInfo))
      (s : ModelsStore) : Step s (onDownloadComplete modelId snapRes s)
  | stepDownloadCancelled (modelId : String) (s : ModelsStore) :
      Step s (onDownloadCancelled modelId s)
  | stepExtractionStarted (modelId : String) (s : ModelsStore) :
      Step s (onExtractionStarted modelId s)
  | stepExtractionCompleted (modelId : String) (snapRes : CmdResult (List ModelInfo))
      (s : ModelsStore) : Step s (onExtractionCompleted modelId snapRes s)
  | stepExtractionFailed (modelId : String) (errMsg : String) (s : ModelsStore) :
      Step s (onExtractionFailed modelId errMsg s)
  | stepModelDeleted (snapRes : CmdResult (List ModelInfo)) (curRes : CmdResult String)
      (s : ModelsStore) : Step s (onModelDeleted snapRes curRes s)
  | stepStateChanged (snapRes : CmdResult (List ModelInfo)) (curRes : CmdResult String)
      (s : ModelsStore) : Step s (onStateChanged snapRes curRes s)
  | stepSetModels (ms : List ModelInfo) (s : ModelsStore) : Step s { s with models := ms }
  | stepSetCurrentModel (modelId : String) (s : ModelsStore) :
      Step s { s with currentModel := modelId }
  | stepSetError (e : Option String) (s : ModelsStore) : Step s { s with error := e }
  | stepSetLoading (b : Bool) (s : ModelsStore) : Step s { s with loading := b }
  | stepSetInitialized (s : ModelsStore) : Step s { s with initialized := true }

/-- States reachable from the store's initial state by any sequence of
actions, listener invocations and setters. -/
def Reachable (s : ModelsStore) : Prop :=
  Relation.ReflTransGen Step initialState s

/-- States observed equal: all scalar fields equal and all four record
fields equal as key-value maps (JS records differing only in key
insertion order are indistinguishable to every reader of the store). -/
def obsEq (s t : ModelsStore) : Prop :=
  s.models = t.models ∧ s.currentModel = t.currentModel ∧
  (∀ id, memK s.downloadingModels id = memK t.downloadingModels id) ∧
  (∀ id, memK s.extractingModels id = memK t.extractingModels id) ∧
  (∀ id, lookupV s.downloadProgress id = lookupV t.downloadProgress id) ∧
  (∀ id, lookupV s.downloadStats id = lookupV t.downloadStats id) ∧
  s.loading = t.loading ∧ s.error = t.error ∧ s.hasAnyModels = t.hasAnyModels ∧
  s.isFirstRun = t.isFirstRun ∧ s.initialized = t.initialized

/-! ## Helper lemmas about the operations -/

theorem loadModels_downloadProgress (res : CmdResult (List ModelInfo)) (s : ModelsStore) :
    (loadModels res s).downloadProgress = s.downloadProgress := by
  cases res <;> rfl

theorem loadModels_downloadStats (res : CmdResult (List ModelInfo)) (s : ModelsStore) :
    (loadModels res s).downloadStats = s.downloadStats := by
  cases res <;> rfl

theorem loadModels_extractingModels (res : CmdResult (List ModelInfo)) (s : ModelsStore) :
    (loadModels res s).extractingModels = s.extractingModels := by
  cases res <;> rfl

theorem loadModels_error_ok (data : List ModelInfo) (s : ModelsStore) :
    (loadModels (.ok data) s).error = none := rfl

theorem loadModels_err (e : String) (s : ModelsStore) :
    loadModels (.err e) s =
      { s with error := some ("Failed to load models: " ++ e), loading := false } := rfl

theorem loadModels_thrown (e : String) (s : ModelsStore) :
    loadModels (.thrown e) s =
      { s with error := some ("Failed to load models: " ++ e), loading := false } := rfl

/-- The downloading set after a successful snapshot refresh: an id is a
member iff the snapshot marks it downloading, or it was a member before
and still has a progress record. -/
theorem memK_loadModels_ok (data : List ModelInfo) (s : ModelsStore) (id : String) :
    memK (loadModels (.ok data) s).downloadingModels id =
      (memK (backendDownloadingIds data) id ||
        (memK s.downloadingModels id && (lookupV s.downloadProgress id).isSome)) := by
  show memK (filterK _ ((backendDownloadingIds data).foldl addK s.downloadingModels)) id = _
  rw [memK_filterK, memK_foldl_addK]
  cases hB : memK (backendDownloadingIds data) id <;>
    cases hm : memK s.downloadingModels id <;>
    cases hp : (lookupV s.downloadProgress id).isSome <;> simp [hB, hm, hp]

theorem loadCurrentModel_error (res : CmdResult String) (s : ModelsStore) :
    (loadCurrentModel res s).error = s.error := by
  cases res <;> rfl

theorem loadCurrentModel_downloadProgress (res : CmdResult String) (s : ModelsStore) :
    (loadCurrentModel res s).downloadProgress = s.downloadProgress := by
  cases res <;> rfl

theorem loadCurrentModel_downloadStats (res : CmdResult String) (s : ModelsStore) :
    (loadCurrentModel res s).downloadStats = s.downloadStats := by
  cases res <;> rfl

theorem delK_delK (l : List String) (k : String) : delK (delK l k) k = delK l k := by
  induction l with
  | nil => rfl
  | cons x rest ih =>
      by_cases hx : x = k
      · simp [delK, hx, ih]
      · simp [delK, hx, ih]

theorem delV_delV {α : Type} (m : List (String × α)) (k : String) :
    delV (delV m k) k = delV m k := by
  induction m with
  | nil => rfl
  | cons p rest ih =>
      obtain ⟨k₀, v₀⟩ := p
      by_cases h : k₀ = k
      · simp [delV, h, ih]
      · simp [delV, h, ih]

/-- The one-sided pairing invariant that actually holds: a throughput
stats record for an id exists only if a progress record for it exists. -/
def StatsImpliesProgress (s : ModelsStore) : Prop :=
  ∀ id, (lookupV s.downloadStats id).isSome = true →
    (lookupV s.downloadProgress id).isSome = true

theorem statsImpliesProgress_loadModels (res : CmdResult (List ModelInfo))
    {s : ModelsStore} (hs : StatsImpliesProgress s) :
    StatsImpliesProgress (loadModels res s) := by
  intro id
  rw [loadModels_downloadStats, loadModels_downloadProgress]
  exact hs id

theorem statsImpliesProgress_loadCurrentModel (res : CmdResult String)
    {s : ModelsStore} (hs : StatsImpliesProgress s) :
    StatsImpliesProgress (loadCurrentModel res s) := by
  intro id
  rw [loadCurrentModel_downloadStats, loadCurrentModel_downloadProgress]
  exact hs id

theorem statsImpliesProgress_remove (modelId : String) {s : ModelsStore}
    (hs : StatsImpliesProgress s) :
    StatsImpliesProgress (removeDownloadEntries modelId s) := by
  intro id h
  show (lookupV (delV s.downloadProgress modelId) id).isSome = true
  have h' : (lookupV (delV s.downloadStats modelId) id).isSome = true := h
  rw [lookupV_delV] at h' ⊢
  by_cases hm : modelId = id
  · simp [hm] at h'
  · rw [if_neg hm] at h' ⊢
    exact hs id h'

theorem downloadModel_downloadStats (modelId : String) (res : CmdResult Unit)
    (s : ModelsStore) : (downloadModel modelId res s).1.downloadStats = s.downloadStats := by
  cases res <;> rfl

theorem downloadModel_downloadProgress (modelId : String) (res : CmdResult Unit)
    (s : ModelsStore) :
    (downloadModel modelId res s).1.downloadProgress =
      setV s.downloadProgress modelId (zeroProgress modelId) := by
  cases res <;> rfl

theorem statsImpliesProgress_downloadModel (modelId : String) (res : CmdResult Unit)
    {s : ModelsStore} (hs : StatsImpliesProgress s) :
    StatsImpliesProgress (downloadModel modelId res s).1 := by
  intro id h
  rw [downloadModel_downloadStats] at h
  rw [downloadModel_downloadProgress, lookupV_setV]
  by_cases hm : modelId = id
  · simp [hm]
  · rw [if_neg hm]
    exact hs id h

theorem statsImpliesProgress_onDownloadProgress (p : DownloadProgress) (now : ℚ)
    {s : ModelsStore} (hs : StatsImpliesProgress s) :
    StatsImpliesProgress (onDownloadProgress p now s) := by
  have hp : ∀ id, (lookupV s.downloadStats id).isSome = true →
      (lookupV (setV s.downloadProgress p.model_id p) id).isSome = true := by
    intro id h
    rw [lookupV_setV]
    by_cases hm : p.model_id = id
    · simp [hm]
    · rw [if_neg hm]
      exact hs id h
  have hpid : (lookupV (setV s.downloadProgress p.model_id p) p.model_id).isSome = true := by
    rw [lookupV_setV]
    simp
  intro id h
  simp only [onDownloadProgress] at h ⊢
  split at h
  · show (lookupV (setV s.downloadProgress p.model_id p) id).isSome = true
    rw [lookupV_setV] at h
    by_cases hm : p.model_id = id
    · subst hm
      exact hpid
    · rw [if_neg hm] at h
      exact hp id h
  · rename_i current heq
    split at h
    · rename_i hgt
      rw [if_pos hgt]
      show (lookupV (setV s.downloadProgress p.model_id p) id).isSome = true
      rw [lookupV_setV] at h
      by_cases hm : p.model_id = id
      · subst hm
        exact hpid
      · rw [if_neg hm] at h
        exact hp id h
    · rename_i hgt
      rw [if_neg hgt]
      show (lookupV (setV s.downloadProgress p.model_id p) id).isSome = true
      exact hp id h

theorem statsImpliesProgress_step {s t : ModelsStore} (h : Step s t)
    (hs : StatsImpliesProgress s) : StatsImpliesProgress t := by
  cases h with
  | stepLoadModels res s => exact statsImpliesProgress_loadModels res hs
  | stepLoadCurrentModel res s => exact statsImpliesProgress_loadCurrentModel res hs
  | stepCheckFirstRun res s => cases res <;> exact hs
  | stepSelectModel modelId res s => cases res <;> exact hs
  | stepDownloadModel modelId res s => exact statsImpliesProgress_downloadModel modelId res hs
  | stepCancelDownload modelId res snapRes s =>
      cases res with
      | ok _ =>
          exact statsImpliesProgress_loadModels snapRes
            (statsImpliesProgress_remove modelId hs)
      | err _ => exact hs
      | thrown _ => exact hs
  | stepDeleteModel modelId res snapRes curRes s =>
      cases res with
      | ok _ =>
          exact statsImpliesProgress_loadCurrentModel curRes
            (statsImpliesProgress_loadModels snapRes hs)
      | err _ => exact hs
      | thrown _ => exact hs
  | stepProgress p now s => exact statsImpliesProgress_onDownloadProgress p now hs
  | stepDownloadComplete modelId snapRes s =>
      exact statsImpliesProgress_loadModels snapRes (statsImpliesProgress_remove modelId hs)
  | stepDownloadCancelled modelId s => exact statsImpliesProgress_remove modelId hs
  | stepExtractionStarted modelId s => exact hs
  | stepExtractionCompleted modelId snapRes s =>
      exact statsImpliesProgress_loadModels snapRes hs
  | stepExtractionFailed modelId errMsg s => exact hs
  | stepModelDeleted snapRes curRes s =>
      exact statsImpliesProgress_loadCurrentModel curRes
        (statsImpliesProgress_loadModels snapRes hs)
  | stepStateChanged snapRes curRes s =>
      exact statsImpliesProgress_loadCurrentModel curRes
        (statsImpliesProgress_loadModels snapRes hs)
  | stepSetModels ms s => exact hs
  | stepSetCurrentModel modelId s => exact hs
  | stepSetError e s => exact hs
  | stepSetLoading b s => exact hs
  | stepSetInitialized s => exact hs

theorem statsImpliesProgress_reachable {s : ModelsStore} (h : Reachable s) :
    StatsImpliesProgress s := by
  induction h with
  | refl =>
      intro id hid
      simp [initialState, lookupV] at hid
  | tail _ hstep ih => exact statsImpliesProgress_step hstep ih

/-- Evaluation of the progress listener on an accepted sample (more than
0.5 s since the last accepted one): the stats entry is replaced by the
smoothing update, stated with the clamp factored as
max(0, delta / elapsed) / (1024·1024). -/
theorem lookup_onDownloadProgress_accepted (p : DownloadProgress) (now : ℚ)
    (current : DownloadStats) (s : ModelsStore)
    (hcur : lookupV s.downloadStats p.model_id = some current)
    (helapsed : (now - current.lastUpdate) / 1000 > 0.5) :
    lookupV (onDownloadProgress p now s).downloadStats p.model_id =
      some { startTime := current.startTime, lastUpdate := now,
             totalDownloaded := p.downloaded,
             speed :=
               if current.speed > 0 then
                 current.speed * 0.8 +
                   max 0 ((p.downloaded - current.totalDownloaded) /
                     ((now - current.lastUpdate) / 1000)) / (1024 * 1024) * 0.2
               else
                 max 0 ((p.downloaded - current.totalDownloaded) /
                   ((now - current.lastUpdate) / 1000)) / (1024 * 1024) } := by
  have hval : validCurrentSpeed current p.downloaded now =
      max 0 ((p.downloaded - current.totalDownloaded) /
        ((now - current.lastUpdate) / 1000)) / (1024 * 1024) := by
    unfold validCurrentSpeed currentSpeedOf
    rw [← max_div_div_right (by norm_num : (0:ℚ) ≤ 1024 * 1024), zero_div, div_right_comm]
  have hnonneg : (0:ℚ) ≤ validCurrentSpeed current p.downloaded now := le_max_left 0 _
  have hsm : max 0 (if current.speed > 0 then
        current.speed * 0.8 + validCurrentSpeed current p.downloaded now * 0.2
      else validCurrentSpeed current p.downloaded now) =
      (if current.speed > 0 then
        current.speed * 0.8 + validCurrentSpeed current p.downloaded now * 0.2
      else validCurrentSpeed current p.downloaded now) := by
    apply max_eq_right
    by_cases hsp : current.speed > 0
    · rw [if_pos hsp]
      exact add_nonneg (mul_nonneg (le_of_lt hsp) (by norm_num))
        (mul_nonneg hnonneg (by norm_num))
    · rw [if_neg hsp]
      exact hnonneg
  simp only [onDownloadProgress, hcur]
  rw [if_pos helapsed, lookupV_setV, if_pos rfl, hsm, hval]

theorem obsEq_refl (s : ModelsStore) : obsEq s s :=
  ⟨rfl, rfl, fun _ => rfl, fun _ => rfl, fun _ => rfl, fun _ => rfl,
    rfl, rfl, rfl, rfl, rfl⟩

theorem obsEq_of_eq {s t : ModelsStore} (h : s = t) : obsEq s t := by
  subst h
  exact obsEq_refl s

/-! ## Claims -/

/-- A store with one locally downloading model and its progress record,
used to instantiate refresh behavior at a concrete input. -/
def c3Store : ModelsStore :=
  { initialState with
      downloadingModels := ["m1"]
      downloadProgress := [("m1", zeroProgress "m1")] }

/-- C10: if the has-any-models-available gateway call returns a failure
status or throws, `checkFirstRun` returns `false` and leaves
`hasAnyModels`, `isFirstRun`, and all other store state unchanged; only
on a successful response does it set `hasAnyModels` to the returned
boolean, set `isFirstRun` to its negation, and return that negation. -/
theorem C10_checkFirstRun_policy :
    (∀ (e : String) (s : ModelsStore), checkFirstRun (.err e) s = (s, false)) ∧
    (∀ (e : String) (s : ModelsStore), checkFirstRun (.thrown e) s = (s, false)) ∧
    (∀ (b : Bool) (s : ModelsStore),
      checkFirstRun (.ok b) s = ({ s with hasAnyModels := b, isFirstRun := !b }, !b)) :=
  ⟨fun _ _ => rfl, fun _ _ => rfl, fun _ _ => rfl⟩

/-- C4 as stated is false: a successful `loadModels` run (invoked by the
push-event handlers) clears a user-facing error message already
present. -/
theorem C4_counterexample :
    (loadModels (.ok []) { initialState with error := some "previous failure" }).error = none ∧
    ({ initialState with error := some "previous failure" } : ModelsStore).error =
      some "previous failure" :=
  ⟨rfl, rfl⟩

/-- C4 amended: `loadCurrentModel` (refreshActiveModel) leaves the error
field unchanged on every outcome — on a rejected or thrown call it leaves
the whole state unchanged, on success it only replaces the active-model
id.  The snapshot refresh `loadModels`, however, does touch the error
field: it clears it on success and sets a failure message on rejection or
throw. -/
theorem C4_background_refresh_error_policy :
    (∀ (res : CmdResult String) (s : ModelsStore), (loadCurrentModel res s).error = s.error) ∧
    (∀ (m : String) (s : ModelsStore),
      loadCurrentModel (.ok m) s = { s with currentModel := m }) ∧
    (∀ (e : String) (s : ModelsStore), loadCurrentModel (.err e) s = s) ∧
    (∀ (e : String) (s : ModelsStore), loadCurrentModel (.thrown e) s = s) ∧
    (∀ (data : List ModelInfo) (s : ModelsStore), (loadModels (.ok data) s).error = none) ∧
    (∀ (e : String) (s : ModelsStore),
      (loadModels (.err e) s).error = some ("Failed to load models: " ++ e)) ∧
    (∀ (e : String) (s : ModelsStore),
      (loadModels (.thrown e) s).error = some ("Failed to load models: " ++ e)) :=
  ⟨fun res _ => loadCurrentModel_error res _, fun _ _ => rfl, fun _ _ => rfl, fun _ _ => rfl,
    fun _ _ => rfl, fun _ _ => rfl, fun _ _ => rfl⟩

/-- C1 as stated is false: after a rejected `downloadModel` from the
initial state, the optimistically created zeroed progress record for the
id is still present, while before the call there was none. -/
theorem C1_counterexample :
    lookupV (downloadModel "m1" (.err "rejected") initialState).1.downloadProgress "m1" =
      some (zeroProgress "m1") ∧
    lookupV initialState.downloadProgress "m1" = none :=
  ⟨rfl, rfl⟩

/-- C1 amended: if `downloadModel` is rejected or throws, afterwards the
id is absent from the downloading set (the optimistic membership entry is
rolled back, as is any membership entry that predated the call), an error
message is surfaced and `false` is returned — but the optimistically
created zeroed progress record for the id remains in place, and the
stats, the other ids' membership and progress entries, and the remaining
fields are untouched. -/
theorem C1_download_failure_rollback (modelId : String) (e : String) (s : ModelsStore)
    (res : CmdResult Unit) (hres : res = .err e ∨ res = .thrown e) :
    memK (downloadModel modelId res s).1.downloadingModels modelId = false ∧
    lookupV (downloadModel modelId res s).1.downloadProgress modelId =
      some (zeroProgress modelId) ∧
    (downloadModel modelId res s).1.error = some ("Failed to download model: " ++ e) ∧
    (downloadModel modelId res s).2 = false ∧
    (downloadModel modelId res s).1.downloadStats = s.downloadStats ∧
    (∀ x, x ≠ modelId →
      memK (downloadModel modelId res s).1.downloadingModels x =
        memK s.downloadingModels x ∧
      lookupV (downloadModel modelId res s).1.downloadProgress x =
        lookupV s.downloadProgress x) := by
  have hmem : ∀ x, memK (delK (addK s.downloadingModels modelId) modelId) x =
      if modelId = x then false else memK s.downloadingModels x := by
    intro x
    rw [memK_delK]
    by_cases hx : modelId = x
    · simp [hx]
    · rw [if_neg hx, if_neg hx, memK_addK]
      simp [hx]
  have hprog : ∀ x, lookupV (setV s.downloadProgress modelId (zeroProgress modelId)) x =
      if modelId = x then some (zeroProgress modelId) else lookupV s.downloadProgress x :=
    fun x => lookupV_setV s.downloadProgress modelId x (zeroProgress modelId)
  have hdm : (downloadModel modelId res s).1.downloadingModels =
      delK (addK s.downloadingModels modelId) modelId := by
    rcases hres with h | h <;> subst h <;> rfl
  have hdp : (downloadModel modelId res s).1.downloadProgress =
      setV s.downloadProgress modelId (zeroProgress modelId) := by
    rcases hres with h | h <;> subst h <;> rfl
  have herr : (downloadModel modelId res s).1.error =
      some ("Failed to download model: " ++ e) := by
    rcases hres with h | h <;> subst h <;> rfl
  have hret : (downloadModel modelId res s).2 = false := by
    rcases hres with h | h <;> subst h <;> rfl
  have hstats : (downloadModel modelId res s).1.downloadStats = s.downloadStats := by
    rcases hres with h | h <;> subst h <;> rfl
  refine ⟨?_, ?_, herr, hret, hstats, fun x hx => ⟨?_, ?_⟩⟩
  · rw [hdm, hmem]
    simp
  · rw [hdp, hprog]
    simp
  · rw [hdm, hmem, if_neg (fun hc => hx hc.symm)]
  · rw [hdp, hprog, if_neg (fun hc => hx hc.symm)]

/-- Closed instance of the amended C1 at a concrete failing download. -/
theorem C1_download_failure_rollback_witness :
    ((.err "denied" : CmdResult Unit) = .err "denied" ∨
      (.err "denied" : CmdResult Unit) = .thrown "denied") ∧
    memK (downloadModel "m1" (.err "denied") initialState).1.downloadingModels "m1" = false ∧
    (downloadModel "m1" (.err "denied") initialState).1.error =
      some "Failed to download model: denied" :=
  ⟨Or.inl rfl,
    (C1_download_failure_rollback "m1" "denied" initialState (.err "denied") (Or.inl rfl)).1,
    (C1_download_failure_rollback "m1" "denied" initialState (.err "denied") (Or.inl rfl)).2.2.1⟩

/-- C9: `cancelDownload` on backend success removes the membership,
progress, and stats entries for the id and then runs a full `loadModels`
(whose own outcome is `snapRes`), returning `true`; on rejection or
thrown error it surfaces an error message and changes nothing else
(membership, progress and stats for every id are unchanged, as are all
other fields). -/
theorem C9_cancelDownload_policy (modelId : String) (snapRes : CmdResult (List ModelInfo))
    (s : ModelsStore) :
    ((cancelDownload modelId (.ok ()) snapRes s).1 =
        loadModels snapRes (removeDownloadEntries modelId { s with error := none }) ∧
      memK (removeDownloadEntries modelId { s with error := none }).downloadingModels
        modelId = false ∧
      lookupV (removeDownloadEntries modelId { s with error := none }).downloadProgress
        modelId = none ∧
      lookupV (cancelDownload modelId (.ok ()) snapRes s).1.downloadProgress modelId = none ∧
      lookupV (cancelDownload modelId (.ok ()) snapRes s).1.downloadStats modelId = none ∧
      (cancelDownload modelId (.ok ()) snapRes s).2 = true) ∧
    (∀ e, cancelDownload modelId (.err e) snapRes s =
      ({ s with error := some ("Failed to cancel download: " ++ e) }, false)) ∧
    (∀ e, cancelDownload modelId (.thrown e) snapRes s =
      ({ s with error := some ("Failed to cancel download: " ++ e) }, false)) := by
  refine ⟨⟨rfl, ?_, ?_, ?_, ?_, rfl⟩, fun e => rfl, fun e => rfl⟩
  · rw [show (removeDownloadEntries modelId { s with error := none }).downloadingModels =
        delK s.downloadingModels modelId from rfl, memK_delK]
    simp
  · rw [show (removeDownloadEntries modelId { s with error := none }).downloadProgress =
        delV s.downloadProgress modelId from rfl, lookupV_delV]
    simp
  · rw [show (cancelDownload modelId (.ok ()) snapRes s).1 =
        loadModels snapRes (removeDownloadEntries modelId { s with error := none }) from rfl,
      loadModels_downloadProgress,
      show (removeDownloadEntries modelId { s with error := none }).downloadProgress =
        delV s.downloadProgress modelId from rfl, lookupV_delV]
    simp
  · rw [show (cancelDownload modelId (.ok ()) snapRes s).1 =
        loadModels snapRes (removeDownloadEntries modelId { s with error := none }) from rfl,
      loadModels_downloadStats,
      show (removeDownloadEntries modelId { s with error := none }).downloadStats =
        delV s.downloadStats modelId from rfl, lookupV_delV]
    simp

/-- C3: a successful `loadModels` adds to the downloading set every id
the snapshot marks downloading, and removes a current member id only if
the snapshot says the id is not downloading and no progress record
currently exists for it; an id with a progress record is never removed by
a refresh, and once its progress record is gone the same snapshot does
remove it. -/
theorem C3_refresh_merge (data : List ModelInfo) (s : ModelsStore) (id : String) :
    (memK (loadModels (.ok data) s).downloadingModels id =
      (memK (backendDownloadingIds data) id ||
        (memK s.downloadingModels id && (lookupV s.downloadProgress id).isSome))) ∧
    (memK (backendDownloadingIds data) id = true →
      memK (loadModels (.ok data) s).downloadingModels id = true) ∧
    (memK s.downloadingModels id = true →
      memK (loadModels (.ok data) s).downloadingModels id = false →
      memK (backendDownloadingIds data) id = false ∧
        (lookupV s.downloadProgress id).isSome = false) ∧
    (memK s.downloadingModels id = true → (lookupV s.downloadProgress id).isSome = true →
      memK (loadModels (.ok data) s).downloadingModels id = true) ∧
    (memK (backendDownloadingIds data) id = false →
      (lookupV s.downloadProgress id).isSome = false →
      memK (loadModels (.ok data) s).downloadingModels id = false) := by
  have hchar := memK_loadModels_ok data s id
  refine ⟨hchar, ?_, ?_, ?_, ?_⟩ <;>
    rw [hchar] <;>
    cases hB : memK (backendDownloadingIds data) id <;>
    cases hm : memK s.downloadingModels id <;>
    cases hp : (lookupV s.downloadProgress id).isSome <;> simp

/-- Closed instance of C3's non-regression clause: a locally downloading
id with a progress record survives a refresh whose snapshot omits it, and
after the progress record is gone the same snapshot removes it. -/
theorem C3_refresh_merge_witness :
    (memK c3Store.downloadingModels "m1" = true ∧
      (lookupV c3Store.downloadProgress "m1").isSome = true ∧
      memK (loadModels (.ok []) c3Store).downloadingModels "m1" = true) ∧
    (memK (backendDownloadingIds []) "m1" = false ∧
      (lookupV (removeDownloadEntries "m1" c3Store).downloadProgress "m1").isSome = false ∧
      memK (loadModels (.ok []) (removeDownloadEntries "m1" c3Store)).downloadingModels
        "m1" = false) :=
  ⟨⟨by decide, by decide,
    (C3_refresh_merge [] c3Store "m1").2.2.2.1 (by decide) (by decide)⟩,
   ⟨by decide, by decide,
    (C3_refresh_merge [] (removeDownloadEntries "m1" c3Store) "m1").2.2.2.2
      (by decide) (by decide)⟩⟩

/-- C2 as stated is false: after a locally started (and accepted)
download, reachable from the initial state in one step, the id has a
progress record but no throughput stats record — the pairing is created
only by the first progress event. -/
theorem C2_counterexample :
    Reachable (downloadModel "m1" (.ok ()) initialState).1 ∧
    (lookupV (downloadModel "m1" (.ok ()) initialState).1.downloadProgress "m1").isSome =
      true ∧
    lookupV (downloadModel "m1" (.ok ()) initialState).1.downloadStats "m1" = none :=
  ⟨Relation.ReflTransGen.single (Step.stepDownloadModel "m1" (.ok ()) initialState),
    by decide, by decide⟩

/-- C2 amended: in every reachable state the pairing holds in one
direction only — a throughput stats record for an id exists only if a
progress record for that id exists (every operation and event handler
preserves this, and the two are always destroyed together); the converse
direction fails between a local download start and the first progress
event for the id. -/
theorem C2_stats_implies_progress (s : ModelsStore) (h : Reachable s) (id : String)
    (hstats : (lookupV s.downloadStats id).isSome = true) :
    (lookupV s.downloadProgress id).isSome = true :=
  statsImpliesProgress_reachable h id hstats

/-- Closed instance of the amended C2 at the state after one progress
event. -/
theorem C2_stats_implies_progress_witness :
    Reachable (onDownloadProgress ⟨"m1", 100, 1000, 10⟩ 0 initialState) ∧
    (lookupV (onDownloadProgress ⟨"m1", 100, 1000, 10⟩ 0 initialState).downloadStats
      "m1").isSome = true ∧
    (lookupV (onDownloadProgress ⟨"m1", 100, 1000, 10⟩ 0 initialState).downloadProgress
      "m1").isSome = true :=
  ⟨Relation.ReflTransGen.single (Step.stepProgress ⟨"m1", 100, 1000, 10⟩ 0 initialState),
    by decide,
    C2_stats_implies_progress _
      (Relation.ReflTransGen.single (Step.stepProgress ⟨"m1", 100, 1000, 10⟩ 0 initialState))
      "m1" (by decide)⟩

/-- A store holding estimator state for `m1` with zeroed totals, used to
exercise the progress listener at a concrete input. -/
def c5Store : ModelsStore :=
  { initialState with
      downloadProgress := [("m1", zeroProgress "m1")]
      downloadStats :=
        [("m1", { startTime := 0, lastUpdate := 0, totalDownloaded := 0, speed := 0 })] }

/-- C5 as stated is false: an accepted sample of 1048576 bytes after one
time-unit stores a smoothed rate of 1 (the listener divides the byte
delta by 1024·1024 before dividing by the elapsed time), not the
1048576 = max(0, (sample bytes − last total) / elapsed) the claim's
formula dictates. -/
theorem C5_counterexample :
    lookupV (onDownloadProgress ⟨"m1", 1048576, 2097152, 50⟩ 1000 c5Store).downloadStats
        "m1" =
      some { startTime := 0, lastUpdate := 1000, totalDownloaded := 1048576, speed := 1 } ∧
    ¬ ((1 : ℚ) = max 0 (((1048576 : ℚ) - 0) / (((1000 : ℚ) - 0) / 1000))) := by
  have hmax : max (0:ℚ) (((1048576 : ℚ) - 0) / (((1000 : ℚ) - 0) / 1000)) = 1048576 := by
    rw [max_eq_right] <;> norm_num
  constructor
  · rw [lookup_onDownloadProgress_accepted ⟨"m1", 1048576, 2097152, 50⟩ 1000
      { startTime := 0, lastUpdate := 0, totalDownloaded := 0, speed := 0 }
      c5Store rfl (by norm_num)]
    rw [if_neg (by norm_num : ¬ (0:ℚ) > 0), hmax]
    norm_num
  · rw [hmax]
    norm_num

/-- C5 amended: for every stored estimator state and every sample whose
elapsed time (in seconds) since last-update exceeds 0.5, the update
computes the instantaneous rate max(0, (sample bytes − last total) /
elapsed) *scaled by 1/(1024·1024)* (the stored rate is in MB per
time-unit), sets the new smoothed rate to previous rate × 0.8 +
instantaneous rate × 0.2 when a positive previous rate exists and to the
instantaneous rate otherwise, and updates last-update and the running
total to the sample's values (the start time is kept). -/
theorem C5_estimator_update (p : DownloadProgress) (now : ℚ) (current : DownloadStats)
    (s : ModelsStore)
    (hcur : lookupV s.downloadStats p.model_id = some current)
    (helapsed : (now - current.lastUpdate) / 1000 > 0.5) :
    lookupV (onDownloadProgress p now s).downloadStats p.model_id =
      some { startTime := current.startTime, lastUpdate := now,
             totalDownloaded := p.downloaded,
             speed :=
               if current.speed > 0 then
                 current.speed * 0.8 +
                   max 0 ((p.downloaded - current.totalDownloaded) /
                     ((now - current.lastUpdate) / 1000)) / (1024 * 1024) * 0.2
               else
                 max 0 ((p.downloaded - current.totalDownloaded) /
                   ((now - current.lastUpdate) / 1000)) / (1024 * 1024) } :=
  lookup_onDownloadProgress_accepted p now current s hcur helapsed

/-- Closed instance of the amended C5: a second sample two time-units
after the first blends nothing (previous rate is zero) and stores the
clamped, megabyte-scaled instantaneous rate. -/
theorem C5_estimator_update_witness :
    lookupV c5Store.downloadStats "m1" =
      some { startTime := 0, lastUpdate := 0, totalDownloaded := 0, speed := 0 } ∧
    ((2000 : ℚ) - 0) / 1000 > 0.5 ∧
    lookupV (onDownloadProgress ⟨"m1", 2097152, 4194304, 50⟩ 2000 c5Store).downloadStats
        "m1" =
      some { startTime := 0, lastUpdate := 2000, totalDownloaded := 2097152,
             speed :=
               if (0:ℚ) > 0 then
                 0 * 0.8 + max 0 (((2097152:ℚ) - 0) / (((2000:ℚ) - 0) / 1000)) /
                   (1024 * 1024) * 0.2
               else
                 max 0 (((2097152:ℚ) - 0) / (((2000:ℚ) - 0) / 1000)) / (1024 * 1024) } :=
  ⟨rfl, by norm_num,
    C5_estimator_update ⟨"m1", 2097152, 4194304, 50⟩ 2000
      { startTime := 0, lastUpdate := 0, totalDownloaded := 0, speed := 0 }
      c5Store rfl (by norm_num)⟩

/-- C6: a progress sample for an id with existing estimator state that
arrives 0.5 time-units or less after the last accepted sample replaces
the raw displayed progress record but leaves the whole stats map — and
hence the smoothed rate, last-update, running total and start time for
that id — unchanged (progress records of other ids are also untouched). -/
theorem C6_debounce (p : DownloadProgress) (now : ℚ) (current : DownloadStats)
    (s : ModelsStore)
    (hcur : lookupV s.downloadStats p.model_id = some current)
    (helapsed : (now - current.lastUpdate) / 1000 ≤ 0.5) :
    (onDownloadProgress p now s).downloadStats = s.downloadStats ∧
    lookupV (onDownloadProgress p now s).downloadProgress p.model_id = some p ∧
    (∀ id, id ≠ p.model_id →
      lookupV (onDownloadProgress p now s).downloadProgress id =
        lookupV s.downloadProgress id) := by
  have hnot : ¬ ((now - current.lastUpdate) / 1000 > 0.5) := not_lt.mpr helapsed
  simp only [onDownloadProgress, hcur]
  rw [if_neg hnot]
  refine ⟨rfl, ?_, ?_⟩
  · rw [lookupV_setV, if_pos rfl]
  · intro id hid
    rw [lookupV_setV, if_neg (fun hc => hid hc.symm)]

/-- Closed instance of C6: a sample exactly 0.5 time-units after the last
accepted one updates the displayed progress and leaves the stats map
unchanged. -/
theorem C6_debounce_witness :
    lookupV c5Store.downloadStats "m1" =
      some { startTime := 0, lastUpdate := 0, totalDownloaded := 0, speed := 0 } ∧
    ((500 : ℚ) - 0) / 1000 ≤ 0.5 ∧
    (onDownloadProgress ⟨"m1", 99, 1000, 9⟩ 500 c5Store).downloadStats =
      c5Store.downloadStats ∧
    lookupV (onDownloadProgress ⟨"m1", 99, 1000, 9⟩ 500 c5Store).downloadProgress "m1" =
      some ⟨"m1", 99, 1000, 9⟩ :=
  ⟨rfl, by norm_num,
    (C6_debounce ⟨"m1", 99, 1000, 9⟩ 500
      { startTime := 0, lastUpdate := 0, totalDownloaded := 0, speed := 0 }
      c5Store rfl (by norm_num)).1,
    (C6_debounce ⟨"m1", 99, 1000, 9⟩ 500
      { startTime := 0, lastUpdate := 0, totalDownloaded := 0, speed := 0 }
      c5Store rfl (by norm_num)).2.1⟩

/-- C7: an accepted sample whose cumulative bytes is below the stored
total contributes an instantaneous rate of exactly zero to the smoothing
step, and every stats record the progress listener writes (fresh or
updated) carries a non-negative smoothed rate. -/
theorem C7_negative_delta_clamp :
    (∀ (current : DownloadStats) (downloaded now : ℚ),
      downloaded < current.totalDownloaded →
      (now - current.lastUpdate) / 1000 > 0.5 →
      validCurrentSpeed current downloaded now = 0) ∧
    (∀ (p : DownloadProgress) (now : ℚ) (s : ModelsStore) (id : String)
      (st : DownloadStats),
      lookupV (onDownloadProgress p now s).downloadStats id = some st →
      lookupV s.downloadStats id = some st ∨ 0 ≤ st.speed) := by
  constructor
  · intro current downloaded now hlt helapsed
    unfold validCurrentSpeed currentSpeedOf
    apply max_eq_left
    apply div_nonpos_iff.mpr
    apply Or.inr
    constructor
    · apply div_nonpos_iff.mpr
      apply Or.inr
      exact ⟨by linarith, by norm_num⟩
    · linarith
  · intro p now s id st h
    simp only [onDownloadProgress] at h
    split at h
    · rw [lookupV_setV] at h
      by_cases hm : p.model_id = id
      · rw [if_pos hm] at h
        obtain rfl : _ = st := Option.some.inj h
        exact Or.inr (le_refl 0)
      · rw [if_neg hm] at h
        exact Or.inl h
    · split at h
      · rw [lookupV_setV] at h
        by_cases hm : p.model_id = id
        · rw [if_pos hm] at h
          obtain rfl : _ = st := Option.some.inj h
          exact Or.inr (le_max_left 0 _)
        · rw [if_neg hm] at h
          exact Or.inl h
      · exact Or.inl h

/-- A store whose estimator for `m1` has already counted 100 bytes, used
to exercise the negative-delta clamp at a concrete input. -/
def c7Store : ModelsStore :=
  { initialState with
      downloadProgress := [("m1", zeroProgress "m1")]
      downloadStats :=
        [("m1", { startTime := 0, lastUpdate := 0, totalDownloaded := 100, speed := 0 })] }

/-- Closed instance of C7: a shrinking byte counter (retry reset)
contributes a zero rate, and the stats record written by that accepted
sample carries a non-negative rate. -/
theorem C7_negative_delta_clamp_witness :
    ((50 : ℚ) < 100) ∧ (((2000 : ℚ) - 0) / 1000 > 0.5) ∧
    validCurrentSpeed { startTime := 0, lastUpdate := 0, totalDownloaded := 100, speed := 0 }
      50 2000 = 0 ∧
    lookupV (onDownloadProgress ⟨"m1", 50, 1000, 5⟩ 2000 c7Store).downloadStats "m1" =
      some { startTime := 0, lastUpdate := 2000, totalDownloaded := 50, speed := 0 } ∧
    (lookupV c7Store.downloadStats "m1" =
        some { startTime := 0, lastUpdate := 2000, totalDownloaded := 50, speed := 0 } ∨
      0 ≤ ({ startTime := 0, lastUpdate := 2000, totalDownloaded := 50,
             speed := 0 } : DownloadStats).speed) := by
  have hmax : max (0:ℚ) (((50 : ℚ) - 100) / (((2000 : ℚ) - 0) / 1000)) = 0 := by
    rw [max_eq_left]
    norm_num
  have hlk : lookupV (onDownloadProgress ⟨"m1", 50, 1000, 5⟩ 2000 c7Store).downloadStats
      "m1" = some (⟨0, 2000, 50, 0⟩ : DownloadStats) := by
    rw [lookup_onDownloadProgress_accepted ⟨"m1", 50, 1000, 5⟩ 2000
      ⟨0, 0, 100, 0⟩ c7Store rfl (by norm_num)]
    rw [if_neg (by norm_num : ¬ (0:ℚ) > 0), hmax]
    norm_num
  exact ⟨by norm_num, by norm_num,
    C7_negative_delta_clamp.1 ⟨0, 0, 100, 0⟩ 50 2000 (by norm_num) (by norm_num),
    hlk,
    C7_negative_delta_clamp.2 ⟨"m1", 50, 1000, 5⟩ 2000 c7Store "m1" ⟨0, 2000, 50, 0⟩ hlk⟩

theorem removeDownloadEntries_idem (modelId : String) (s : ModelsStore) :
    removeDownloadEntries modelId (removeDownloadEntries modelId s) =
      removeDownloadEntries modelId s := by
  simp only [removeDownloadEntries, delK_delK, delV_delV]

theorem onDownloadComplete_twice_obsEq (modelId : String)
    (snapRes : CmdResult (List ModelInfo)) (s : ModelsStore) :
    obsEq (onDownloadComplete modelId snapRes (onDownloadComplete modelId snapRes s))
      (onDownloadComplete modelId snapRes s) := by
  cases snapRes with
  | ok data =>
      refine ⟨rfl, rfl, ?_, fun id => rfl, ?_, ?_, rfl, rfl, rfl, rfl, rfl⟩
      · intro x
        simp only [onDownloadComplete, removeDownloadEntries, memK_loadModels_ok,
          loadModels_downloadProgress, memK_delK, lookupV_delV]
        by_cases hx : modelId = x
        · simp [hx]
        · simp only [if_neg hx]
          cases hB : memK (backendDownloadingIds data) x <;>
            cases hm : memK s.downloadingModels x <;>
            cases hp : (lookupV s.downloadProgress x).isSome <;> simp [hB, hm, hp]
      · intro x
        show lookupV (delV (delV s.downloadProgress modelId) modelId) x =
          lookupV (delV s.downloadProgress modelId) x
        rw [delV_delV]
      · intro x
        show lookupV (delV (delV s.downloadStats modelId) modelId) x =
          lookupV (delV s.downloadStats modelId) x
        rw [delV_delV]
  | err e =>
      apply obsEq_of_eq
      simp only [onDownloadComplete, loadModels_err, removeDownloadEntries,
        delK_delK, delV_delV]
  | thrown e =>
      apply obsEq_of_eq
      simp only [onDownloadComplete, loadModels_thrown, removeDownloadEntries,
        delK_delK, delV_delV]

/-- C8: delivering `model-download-complete` for an id twice in a row
(each delivery running the deletion block and then its snapshot refresh,
both refreshes resolving with the same outcome) yields a state observably
equal to delivering it once; the synchronous deletion block itself is
literally idempotent, and after one delivery the membership, progress and
stats entries for the id are already absent, so the second delivery's
deletions remove nothing. -/
theorem C8_complete_event_idempotent (modelId : String)
    (snapRes : CmdResult (List ModelInfo)) (s : ModelsStore) :
    obsEq (onDownloadComplete modelId snapRes (onDownloadComplete modelId snapRes s))
      (onDownloadComplete modelId snapRes s) ∧
    removeDownloadEntries modelId (removeDownloadEntries modelId s) =
      removeDownloadEntries modelId s ∧
    memK (removeDownloadEntries modelId s).downloadingModels modelId = false ∧
    lookupV (removeDownloadEntries modelId s).downloadProgress modelId = none ∧
    lookupV (removeDownloadEntries modelId s).downloadStats modelId = none := by
  refine ⟨onDownloadComplete_twice_obsEq modelId snapRes s,
    removeDownloadEntries_idem modelId s, ?_, ?_, ?_⟩
  · show memK (delK s.downloadingModels modelId) modelId = false
    rw [memK_delK]
    simp
  · show lookupV (delV s.downloadProgress modelId) modelId = none
    rw [lookupV_delV]
    simp
  · show lookupV (delV s.downloadStats modelId) modelId = none
    rw [lookupV_delV]
    simp

end ModelStore
